import Mathlib

/-!
Verification development for the tipsandtrim HTTP relay.

The repository is a small Express application (src/index.js, plus the
historical near-duplicate revisions in src/unnamed/part_000) bridging a
no-code platform (Glide) with Stripe connected-account onboarding.  The
shallow embedding below models:

- the persisted mapping store `/data/mappings.json` as an association list
  `List (String × String)` with JavaScript-object update semantics
  (`mappings[row] = acct` replaces the value of an existing key in place,
  otherwise appends; keys of a JS object are unique);
- the three request handlers of src/index.js (first revision):
  `POST /create-connected-account`, `POST /webhook`,
  `GET /get-remediation-link`, as pure functions from the parsed request,
  an environment describing the outcomes of outbound calls (Stripe account
  creation, account-link creation, login-link creation, and the Glide
  push), and the readable state of the mapping file, to an HTTP outcome
  together with an ordered trace of the side effects the handler performs;
- the webhook handler of src/unnamed/part_000 (first revision), which
  differs from src/index.js only in its mappings-read-failure branch
  (explicit 500 instead of an uncaught exception);
- the `POST /create-connected-account` handler of the second revision in
  src/unnamed/part_000, which creates the account and the onboarding link
  and pushes the link to Glide without ever touching the mapping store.

Outbound calls and file reads are modelled by `Except Unit` results
supplied by the environment; a JavaScript value that may be `undefined`
or an empty string is modelled as `Option String` with the JS-truthiness
test `isTruthyOpt`.
-/

/-- The mapping table persisted at /data/mappings.json: a JSON object whose
keys are external row ids and whose values are Stripe account ids.  JS
object key order is insertion order, so an association list is the faithful
model. -/
abbrev Mappings := List (String × String)

/-- JS `mappings[row_id] = account_id`: replace the value of an existing
key in place, otherwise append the new key at the end. -/
def setKey : Mappings → String → String → Mappings
  | [], k, v => [(k, v)]
  | (k', v') :: rest, k, v =>
      if k' = k then (k, v) :: rest else (k', v') :: setKey rest k v

/-- JS `mappings[row_id]` read: `none` models `undefined` (key absent). -/
def getKey : Mappings → String → Option String
  | [], _ => none
  | (k', v') :: rest, k => if k' = k then some v' else getKey rest k

/-- JS `Object.keys(mappings).find(k => mappings[k] === accountId)`:
first key (in object order) whose value equals the account id. -/
def findRowByAccount : Mappings → String → Option String
  | [], _ => none
  | (k, v) :: rest, a => if v = a then some k else findRowByAccount rest a

/-- The keys of the mapping table, in object order. -/
def keysOf (m : Mappings) : List String := m.map Prod.fst

/-- JS truthiness of a string-or-undefined value: `undefined` and the empty
string are falsy, every other string is truthy.  This is the test performed
by `if (!employee_row_id || !email)` and `if (!accountId)`. -/
def isTruthyOpt : Option String → Bool
  | none => false
  | some s => !(s == "")

/-- One observable side effect of a handler, in program order.  File reads
and writes of /data/mappings.json, each outbound HTTP call, and the
correlation-miss warning log are recorded. -/
inductive Effect where
  /-- `stripe.accounts.create({... email ...})` was called. -/
  | stripeCreateAccount (email : String)
  /-- `fs.readFileSync(mappingsPath)` was called. -/
  | readMappings
  /-- `fs.writeFileSync(mappingsPath, ...)` wrote this table. -/
  | writeMappings (m : Mappings)
  /-- `stripe.accountLinks.create({account: acct, ...})` was called. -/
  | stripeCreateLink (acct : String)
  /-- `stripe.accounts.createLoginLink(acct)` was called. -/
  | stripeCreateLoginLink (acct : String)
  /-- `fetch` of the Glide webhook/mutation endpoint carrying this row id
  and URL; `delivered` records whether the push succeeded. -/
  | glidePush (row : String) (url : String) (delivered : Bool)
  /-- `console.warn` of the no-mapping-found correlation miss. -/
  | warnNoMapping (acct : String)
  deriving DecidableEq

/-- Whether the effect is a Stripe account-creation call. -/
def Effect.isCreateAccount : Effect → Bool
  | .stripeCreateAccount _ => true
  | _ => false

/-- Whether the effect is a write of the mapping file. -/
def Effect.isWriteMappings : Effect → Bool
  | .writeMappings _ => true
  | _ => false

/-- Whether the effect is a Stripe onboarding-link creation call. -/
def Effect.isCreateLink : Effect → Bool
  | .stripeCreateLink _ => true
  | _ => false

/-- Whether the effect is a push to the external Glide platform. -/
def Effect.isGlidePush : Effect → Bool
  | .glidePush _ _ _ => true
  | _ => false

/-- Whether the effect is a Stripe login-link (dashboard-link) creation. -/
def Effect.isCreateLoginLink : Effect → Bool
  | .stripeCreateLoginLink _ => true
  | _ => false

/-- The outcome of one request: the HTTP status sent back (`none` when an
uncaught exception escaped the handler and no response was produced), the
URL carried in a success body, and the ordered trace of side effects. -/
structure HandlerResult where
  status : Option Nat
  url : Option String
  effects : List Effect
  deriving DecidableEq

/-- Outcomes of the outbound collaborators for one request, as the handler
would observe them: each Stripe call either throws (`Except.error`) or
returns its payload, and the Glide push either succeeds or throws. -/
structure StripeEnv where
  /-- Result of `stripe.accounts.create`: the new account id. -/
  createAccount : Except Unit String
  /-- Result of `stripe.accountLinks.create` for a given account id:
  the onboarding-link URL. -/
  createLink : String → Except Unit String
  /-- Result of `stripe.accounts.createLoginLink` for a given account id:
  the one-time dashboard URL. -/
  createLoginLink : String → Except Unit String
  /-- Whether the `fetch` to the Glide endpoint succeeds. -/
  glidePushOk : Bool

/-- The parsed request payload of POST /create-connected-account, after the
body-repair heuristics have produced a JSON object.  Each field is `none`
when absent.  Only `employee_row_id` and `email` affect control flow; the
remaining fields are forwarded to Stripe. -/
structure Payload where
  employee_row_id : Option String
  name : Option String
  email : Option String
  employer_email : Option String
  type : Option String
  business_type : Option String
  deriving DecidableEq

/-- The parsed webhook event's embedded account object
(`event.data.object`). -/
structure StripeAccountObj where
  id : String
  charges_enabled : Bool
  payouts_enabled : Bool
  details_submitted : Bool
  deriving DecidableEq

/-- The parsed webhook event envelope: `event.type` and
`event.data.object`. -/
structure WebhookEvent where
  type : String
  account : StripeAccountObj
  deriving DecidableEq

/-- POST /create-connected-account of src/index.js (first revision,
lines 43-115).  Input: the parse result of the body (`none` = unparsable,
400), the collaborator outcomes, and the readable state of the mapping
file.  Output: the HTTP outcome with its effect trace, and the state of the
mapping file afterwards.  The single try block covers the Stripe
account-creation call, the mapping read-modify-write, and the
onboarding-link call, so any of those failing yields a caught 500. -/
def createConnectedAccount (body : Option Payload) (env : StripeEnv)
    (store : Except Unit Mappings) : HandlerResult × Except Unit Mappings :=
  match body with
  | none => ({ status := some 400, url := none, effects := [] }, store)
  | some data =>
    if !(isTruthyOpt data.employee_row_id && isTruthyOpt data.email) then
      ({ status := some 400, url := none, effects := [] }, store)
    else
      let email := data.email.getD ""
      let row := data.employee_row_id.getD ""
      match env.createAccount with
      | .error _ =>
          ({ status := some 500, url := none,
             effects := [.stripeCreateAccount email] }, store)
      | .ok acct =>
        match store with
        | .error _ =>
            ({ status := some 500, url := none,
               effects := [.stripeCreateAccount email, .readMappings] },
             store)
        | .ok m =>
          let m2 := setKey m row acct
          match env.createLink acct with
          | .error _ =>
              ({ status := some 500, url := none,
                 effects := [.stripeCreateAccount email, .readMappings,
                             .writeMappings m2, .stripeCreateLink acct] },
               .ok m2)
          | .ok link =>
              ({ status := some 200, url := some link,
                 effects := [.stripeCreateAccount email, .readMappings,
                             .writeMappings m2, .stripeCreateLink acct] },
               .ok m2)

/-- GET /get-remediation-link of src/index.js (lines 166-196).  The query
parameter is `none` when absent; JS `if (!accountId)` treats both a missing
key and an empty-string value as no mapping.  The try block covers the
mapping read and the link call, so either failing yields a caught 500.
The handler contains no `fs.writeFileSync`, so the mapping file state is
returned unchanged. -/
def getRemediationLink (q : Option String) (env : StripeEnv)
    (store : Except Unit Mappings) : HandlerResult × Except Unit Mappings :=
  if !(isTruthyOpt q) then
    ({ status := some 400, url := none, effects := [] }, store)
  else
    let row := q.getD ""
    match store with
    | .error _ =>
        ({ status := some 500, url := none, effects := [.readMappings] },
         store)
    | .ok m =>
      match getKey m row with
      | none =>
          ({ status := some 404, url := none, effects := [.readMappings] },
           store)
      | some acct =>
        if acct == "" then
          ({ status := some 404, url := none, effects := [.readMappings] },
           store)
        else
          match env.createLink acct with
          | .error _ =>
              ({ status := some 500, url := none,
                 effects := [.readMappings, .stripeCreateLink acct] },
               store)
          | .ok link =>
              ({ status := some 200, url := some link,
                 effects := [.readMappings, .stripeCreateLink acct] },
               store)

/-- POST /webhook of src/index.js (first revision, lines 118-159).  Input:
the parse result of the event body (`none` = unparsable, 400).  The
mappings read `JSON.parse(fs.readFileSync(...) || ...)` on the qualifying
path is NOT inside any try block, so a read failure is an uncaught
exception escaping the async handler: no response is produced
(`status = none`).  Login-link failure and Glide-push failure are caught
and logged, leaving the 200 acknowledgment unchanged. -/
def webhook (ev : Option WebhookEvent) (env : StripeEnv)
    (store : Except Unit Mappings) : HandlerResult :=
  match ev with
  | none => { status := some 400, url := none, effects := [] }
  | some e =>
    if e.type = "account.updated" then
      let a := e.account
      if a.charges_enabled && a.payouts_enabled && a.details_submitted then
        match store with
        | .error _ => { status := none, url := none, effects := [.readMappings] }
        | .ok m =>
          match findRowByAccount m a.id with
          | none =>
              { status := some 200, url := none,
                effects := [.readMappings, .warnNoMapping a.id] }
          | some row =>
            match env.createLoginLink a.id with
            | .error _ =>
                { status := some 200, url := none,
                  effects := [.readMappings, .stripeCreateLoginLink a.id] }
            | .ok link =>
                { status := some 200, url := none,
                  effects := [.readMappings, .stripeCreateLoginLink a.id,
                              .glidePush row link env.glidePushOk] }
      else { status := some 200, url := none, effects := [] }
    else { status := some 200, url := none, effects := [] }

/-- POST /webhook of src/unnamed/part_000 (first revision, lines 92-143).
Identical to src/index.js's webhook except that the mappings read is
wrapped in try/catch: a read failure returns an explicit 500
(`return res.sendStatus(500)`, lines 107-113). -/
def webhookPart000 (ev : Option WebhookEvent) (env : StripeEnv)
    (store : Except Unit Mappings) : HandlerResult :=
  match ev with
  | none => { status := some 400, url := none, effects := [] }
  | some e =>
    if e.type = "account.updated" then
      let a := e.account
      if a.charges_enabled && a.payouts_enabled && a.details_submitted then
        match store with
        | .error _ =>
            { status := some 500, url := none, effects := [.readMappings] }
        | .ok m =>
          match findRowByAccount m a.id with
          | none =>
              { status := some 200, url := none,
                effects := [.readMappings, .warnNoMapping a.id] }
          | some row =>
            match env.createLoginLink a.id with
            | .error _ =>
                { status := some 200, url := none,
                  effects := [.readMappings, .stripeCreateLoginLink a.id] }
            | .ok link =>
                { status := some 200, url := none,
                  effects := [.readMappings, .stripeCreateLoginLink a.id,
                              .glidePush row link env.glidePushOk] }
      else { status := some 200, url := none, effects := [] }
    else { status := some 200, url := none, effects := [] }

/-- POST /create-connected-account of src/unnamed/part_000 (second
revision, lines 227-313).  This variant creates the Stripe account, creates
the onboarding link, and pushes the link to Glide via
`updateGlideStripeLink`; it never reads or writes the mapping file.  A
failed Glide push throws (`if (!response.ok) throw ...`) inside the same
try block as the Stripe calls, so it is surfaced as a caught 500. -/
def createConnectedAccountV2 (body : Option Payload) (env : StripeEnv)
    (store : Except Unit Mappings) : HandlerResult × Except Unit Mappings :=
  match body with
  | none => ({ status := some 400, url := none, effects := [] }, store)
  | some data =>
    if !(isTruthyOpt data.employee_row_id && isTruthyOpt data.email) then
      ({ status := some 400, url := none, effects := [] }, store)
    else
      let email := data.email.getD ""
      let row := data.employee_row_id.getD ""
      match env.createAccount with
      | .error _ =>
          ({ status := some 500, url := none,
             effects := [.stripeCreateAccount email] }, store)
      | .ok acct =>
        match env.createLink acct with
        | .error _ =>
            ({ status := some 500, url := none,
               effects := [.stripeCreateAccount email,
                           .stripeCreateLink acct] }, store)
        | .ok link =>
          if env.glidePushOk then
            ({ status := some 200, url := some link,
               effects := [.stripeCreateAccount email, .stripeCreateLink acct,
                           .glidePush row link true] }, store)
          else
            ({ status := some 500, url := none,
               effects := [.stripeCreateAccount email, .stripeCreateLink acct,
                           .glidePush row link false] }, store)

/-- A collaborator environment in which every outbound call succeeds:
account creation yields acct_1, and both link calls yield non-empty URLs
derived from the account id. -/
def envA : StripeEnv :=
  { createAccount := Except.ok "acct_1",
    createLink := fun a => Except.ok ("https://connect.stripe.com/setup/" ++ a),
    createLoginLink := fun a => Except.ok ("https://dashboard.stripe.com/" ++ a),
    glidePushOk := true }

/-- A second all-success environment whose account creation yields a
different account id, acct_2 (a re-run of the flow). -/
def envB : StripeEnv :=
  { createAccount := Except.ok "acct_2",
    createLink := fun a => Except.ok ("https://connect.stripe.com/setup/" ++ a),
    createLoginLink := fun a => Except.ok ("https://dashboard.stripe.com/" ++ a),
    glidePushOk := true }

/-- A fully valid request payload. -/
def payloadA : Payload :=
  { employee_row_id := some "row1", name := some "Ann",
    email := some "ann@example.com", employer_email := none,
    type := none, business_type := none }

/-- A payload with the email absent. -/
def payloadNoEmail : Payload :=
  { employee_row_id := some "row1", name := some "Ann", email := none,
    employer_email := none, type := none, business_type := none }

/-- A fully qualifying account.updated completion event for acct_1. -/
def eventQ : WebhookEvent :=
  { type := "account.updated",
    account := { id := "acct_1", charges_enabled := true,
                 payouts_enabled := true, details_submitted := true } }

/-- An account.updated event with payouts still disabled
(charges_enabled = true, payouts_enabled = false,
details_submitted = true). -/
def eventPartial : WebhookEvent :=
  { type := "account.updated",
    account := { id := "acct_1", charges_enabled := true,
                 payouts_enabled := false, details_submitted := true } }

/-! ### Properties of the mapping store operations -/

/-- Looking up the key just written returns the value just written. -/
theorem getKey_setKey_self (m : Mappings) (k v : String) :
    getKey (setKey m k v) k = some v := by
  induction m with
  | nil => simp [setKey, getKey]
  | cons hd tl ih =>
    obtain ⟨k', v'⟩ := hd
    by_cases h : k' = k
    · simp [setKey, h, getKey]
    · simp [setKey, h, getKey, ih]

/-- Membership in the keys after a JS-object write: the written key is
added, all other keys are untouched. -/
theorem mem_keysOf_setKey (m : Mappings) (k v a : String) :
    a ∈ keysOf (setKey m k v) ↔ a ∈ keysOf m ∨ a = k := by
  induction m with
  | nil => simp [setKey, keysOf]
  | cons hd tl ih =>
    obtain ⟨k', v'⟩ := hd
    by_cases h : k' = k
    · subst h
      simp [setKey, keysOf]
      tauto
    · simp [setKey, h, keysOf] at ih ⊢
      tauto

/-- A JS-object write preserves distinctness of the keys. -/
theorem keysOf_setKey_nodup (m : Mappings) (k v : String)
    (h : (keysOf m).Nodup) : (keysOf (setKey m k v)).Nodup := by
  induction m with
  | nil => simp [setKey, keysOf]
  | cons hd tl ih =>
    obtain ⟨k', v'⟩ := hd
    rw [keysOf, List.map_cons, List.nodup_cons] at h
    by_cases hk : k' = k
    · subst hk
      simpa [setKey, keysOf, List.nodup_cons] using h
    · rw [show setKey ((k', v') :: tl) k v = (k', v') :: setKey tl k v from by
        simp [setKey, hk]]
      rw [keysOf, List.map_cons, List.nodup_cons]
      refine ⟨fun hmem => ?_, ih h.2⟩
      rcases (mem_keysOf_setKey tl k v k').1 hmem with h1 | h1
      · exact h.1 h1
      · exact hk h1

/-! ### Claims -/

/-- Claim C3: for every parsed webhook event that is not of type
account.updated, or whose account object does not have all three of
charges_enabled, payouts_enabled and details_submitted true, the webhook
endpoint performs no reverse lookup, no dashboard-link creation and no
external-platform push (its effect trace is empty), and acknowledges with
success (200). -/
theorem claim_C3_webhook_nonqualifying_noop (e : WebhookEvent)
    (env : StripeEnv) (store : Except Unit Mappings)
    (h : e.type ≠ "account.updated" ∨
      (e.account.charges_enabled && e.account.payouts_enabled &&
        e.account.details_submitted) = false) :
    webhook (some e) env store =
      { status := some 200, url := none, effects := [] } := by
  rcases h with h | h
  · simp [webhook, h]
  · by_cases ht : e.type = "account.updated"
    · simp [webhook, ht, h]
    · simp [webhook, ht]

/-- Witness for C3 at the spec's example flags
(charges_enabled = true, payouts_enabled = false,
details_submitted = true). -/
theorem claim_C3_witness :
    webhook (some eventPartial) envA (Except.ok [("row1", "acct_1")]) =
      { status := some 200, url := none, effects := [] } :=
  claim_C3_webhook_nonqualifying_noop eventPartial envA
    (Except.ok [("row1", "acct_1")]) (Or.inr (by decide))

/-- Claim C4: a create-connected-account request whose parsed payload is
missing the row id or the email gets a 400 response, makes no outbound
call (empty effect trace: no account created, no link requested) and
leaves the mapping store unchanged. -/
theorem claim_C4_create_missing_field_rejected (p : Payload)
    (env : StripeEnv) (store : Except Unit Mappings)
    (h : p.employee_row_id = none ∨ p.email = none) :
    createConnectedAccount (some p) env store =
      ({ status := some 400, url := none, effects := [] }, store) := by
  rcases h with h | h
  · simp [createConnectedAccount, h, isTruthyOpt]
  · simp [createConnectedAccount, h, isTruthyOpt]

/-- Witness for C4 at a payload with the email absent. -/
theorem claim_C4_witness :
    createConnectedAccount (some payloadNoEmail) envA (Except.ok []) =
      ({ status := some 400, url := none, effects := [] },
       Except.ok ([] : Mappings)) :=
  claim_C4_create_missing_field_rejected payloadNoEmail envA (Except.ok [])
    (Or.inr rfl)

/-- Claim C5: get-remediation-link with the row id query parameter absent
returns a 400 client error; with a present row id that has no entry in the
mapping store it returns 404 and its trace contains no outbound
link-creation call (only the store read). -/
theorem claim_C5_get_remediation_link_errors (q : Option String)
    (env : StripeEnv) (m : Mappings) :
    (q = none →
      getRemediationLink q env (Except.ok m) =
        ({ status := some 400, url := none, effects := [] }, Except.ok m))
    ∧ (∀ row, q = some row → row ≠ "" → getKey m row = none →
        getRemediationLink q env (Except.ok m) =
          ({ status := some 404, url := none,
             effects := [Effect.readMappings] }, Except.ok m)) := by
  constructor
  · intro h
    subst h
    simp [getRemediationLink, isTruthyOpt]
  · intro row hq hne hget
    subst hq
    have hb : (row == "") = false := beq_eq_false_iff_ne.mpr hne
    simp [getRemediationLink, isTruthyOpt, hb, hget]

/-- Witness for C5: the absent-parameter case and an unknown row over the
empty store. -/
theorem claim_C5_witness :
    (getRemediationLink none envA (Except.ok []) =
      ({ status := some 400, url := none, effects := [] },
       Except.ok ([] : Mappings)))
    ∧ (getRemediationLink (some "row1") envA (Except.ok []) =
      ({ status := some 404, url := none, effects := [Effect.readMappings] },
       Except.ok ([] : Mappings))) :=
  ⟨(claim_C5_get_remediation_link_errors none envA []).1 rfl,
   (claim_C5_get_remediation_link_errors (some "row1") envA []).2 "row1" rfl
     (by decide) rfl⟩

/-- Claim C6: a qualifying completion event whose account id matches no
row in the mapping store is acknowledged with 200, performs no
dashboard-link creation and no external-platform push, and logs the
correlation-miss warning (trace: store read, then the warning only). -/
theorem claim_C6_webhook_correlation_miss (e : WebhookEvent)
    (env : StripeEnv) (m : Mappings)
    (ht : e.type = "account.updated")
    (hf : (e.account.charges_enabled && e.account.payouts_enabled &&
      e.account.details_submitted) = true)
    (hm : findRowByAccount m e.account.id = none) :
    webhook (some e) env (Except.ok m) =
      { status := some 200, url := none,
        effects := [Effect.readMappings,
                    Effect.warnNoMapping e.account.id] } := by
  simp [webhook, ht, hf, hm]

/-- Witness for C6 at the qualifying event over the empty store. -/
theorem claim_C6_witness :
    webhook (some eventQ) envA (Except.ok []) =
      { status := some 200, url := none,
        effects := [Effect.readMappings,
                    Effect.warnNoMapping eventQ.account.id] } :=
  claim_C6_webhook_correlation_miss eventQ envA [] rfl (by decide) rfl

/-- Claim C9: when a row id is mapped to the empty string,
get-remediation-link returns the 404 not-found response and does not
attempt link creation: the falsy check `if (!accountId)` treats the empty
string like absence. -/
theorem claim_C9_empty_account_id_not_found (row : String)
    (env : StripeEnv) (m : Mappings)
    (hrow : row ≠ "") (h : getKey m row = some "") :
    getRemediationLink (some row) env (Except.ok m) =
      ({ status := some 404, url := none, effects := [Effect.readMappings] },
       Except.ok m) := by
  have hb : (row == "") = false := beq_eq_false_iff_ne.mpr hrow
  simp [getRemediationLink, isTruthyOpt, hb, h]

/-- Witness for C9 at a store mapping row1 to the empty string. -/
theorem claim_C9_witness :
    getRemediationLink (some "row1") envA (Except.ok [("row1", "")]) =
      ({ status := some 404, url := none, effects := [Effect.readMappings] },
       Except.ok ([("row1", "")] : Mappings)) :=
  claim_C9_empty_account_id_not_found "row1" envA [("row1", "")]
    (by decide) rfl

/-- Claim C10: get-remediation-link never writes the mapping store: for
every request and every store state the store is unchanged afterwards and
the effect trace contains no mapping-file write. -/
theorem claim_C10_get_remediation_link_read_only (q : Option String)
    (env : StripeEnv) (store : Except Unit Mappings) :
    (getRemediationLink q env store).2 = store ∧
    ((getRemediationLink q env store).1.effects.all
      (fun e => !(e.isWriteMappings))) = true := by
  unfold getRemediationLink
  repeat
    first
    | exact ⟨rfl, rfl⟩
    | split
    | dsimp only

/-! ### The successful create-connected-account run of src/index.js -/

/-- On a valid payload and a successful Stripe account creation, the
create-connected-account handler of src/index.js leaves the mapping file
holding `setKey m row acct`, whether or not the subsequent onboarding-link
call succeeds (the write happens before the link call). -/
theorem createConnectedAccount_store_eq (p : Payload) (row email acct : String)
    (env : StripeEnv) (m : Mappings)
    (h1 : p.employee_row_id = some row) (h2 : row ≠ "")
    (h3 : p.email = some email) (h4 : email ≠ "")
    (h5 : env.createAccount = Except.ok acct) :
    (createConnectedAccount (some p) env (Except.ok m)).2 =
      Except.ok (setKey m row acct) := by
  have hb2 : (row == "") = false := beq_eq_false_iff_ne.mpr h2
  have hb4 : (email == "") = false := beq_eq_false_iff_ne.mpr h4
  rcases hcl : env.createLink acct with e | link <;>
    simp [createConnectedAccount, h1, h3, h5, hcl, isTruthyOpt, hb2, hb4]

/-- The fully successful create-connected-account run of src/index.js:
response 200 with the onboarding URL, effect trace in program order
(account creation, mapping read, mapping write, link creation), and the
mapping file updated with the new account id. -/
theorem createConnectedAccount_success (p : Payload)
    (row email acct link : String) (env : StripeEnv) (m : Mappings)
    (h1 : p.employee_row_id = some row) (h2 : row ≠ "")
    (h3 : p.email = some email) (h4 : email ≠ "")
    (h5 : env.createAccount = Except.ok acct)
    (h6 : env.createLink acct = Except.ok link) :
    createConnectedAccount (some p) env (Except.ok m) =
      ({ status := some 200, url := some link,
         effects := [Effect.stripeCreateAccount email, Effect.readMappings,
                     Effect.writeMappings (setKey m row acct),
                     Effect.stripeCreateLink acct] },
       Except.ok (setKey m row acct)) := by
  have hb2 : (row == "") = false := beq_eq_false_iff_ne.mpr h2
  have hb4 : (email == "") = false := beq_eq_false_iff_ne.mpr h4
  simp [createConnectedAccount, h1, h3, h5, h6, isTruthyOpt, hb2, hb4]

/-- Claim C1: after a valid create-connected-account call for (row, email)
over a readable store, get-remediation-link for the same row returns 200
with the (non-empty) onboarding URL for the stored account; its trace is
only the store read and one link creation for that account, and across the
two operations exactly one Stripe account-creation call occurs. -/
theorem claim_C1_create_then_remediation (p : Payload)
    (row email acct link : String) (env : StripeEnv) (m : Mappings)
    (h1 : p.employee_row_id = some row) (h2 : row ≠ "")
    (h3 : p.email = some email) (h4 : email ≠ "")
    (h5 : env.createAccount = Except.ok acct) (h6 : acct ≠ "")
    (h7 : env.createLink acct = Except.ok link) (h8 : link ≠ "") :
    (getRemediationLink (some row) env
        (createConnectedAccount (some p) env (Except.ok m)).2).1 =
      { status := some 200, url := some link,
        effects := [Effect.readMappings, Effect.stripeCreateLink acct] }
    ∧ link ≠ ""
    ∧ ((createConnectedAccount (some p) env (Except.ok m)).1.effects.countP
          (fun e => e.isCreateAccount)
        + (getRemediationLink (some row) env
            (createConnectedAccount (some p) env (Except.ok m)).2).1.effects.countP
          (fun e => e.isCreateAccount)) = 1 := by
  have hfull := createConnectedAccount_success p row email acct link env m
    h1 h2 h3 h4 h5 h7
  have hb2 : (row == "") = false := beq_eq_false_iff_ne.mpr h2
  have hb6 : (acct == "") = false := beq_eq_false_iff_ne.mpr h6
  rw [hfull]
  refine ⟨?_, h8, ?_⟩
  · simp [getRemediationLink, isTruthyOpt, hb2, getKey_setKey_self, hb6, h7]
  · simp [getRemediationLink, isTruthyOpt, hb2, getKey_setKey_self, hb6, h7,
      List.countP_cons, Effect.isCreateAccount]

/-- Witness for C1: the valid payload for row1 under the all-success
environment, starting from the empty store. -/
theorem claim_C1_witness :
    (getRemediationLink (some "row1") envA
        (createConnectedAccount (some payloadA) envA (Except.ok [])).2).1 =
      { status := some 200,
        url := some ("https://connect.stripe.com/setup/" ++ "acct_1"),
        effects := [Effect.readMappings, Effect.stripeCreateLink "acct_1"] }
    ∧ ("https://connect.stripe.com/setup/" ++ "acct_1") ≠ ""
    ∧ ((createConnectedAccount (some payloadA) envA (Except.ok [])).1.effects.countP
          (fun e => e.isCreateAccount)
        + (getRemediationLink (some "row1") envA
            (createConnectedAccount (some payloadA) envA (Except.ok [])).2).1.effects.countP
          (fun e => e.isCreateAccount)) = 1 :=
  claim_C1_create_then_remediation payloadA "row1" "ann@example.com" "acct_1"
    ("https://connect.stripe.com/setup/" ++ "acct_1") envA []
    rfl (by decide) rfl (by decide) rfl (by decide) rfl (by decide)

/-- Claim C2: calling create-connected-account twice with the same row id
overwrites the stored mapping: the final store is the double `setKey`, the
row resolves to the second account id, the store holds at most one entry
for the row after each write, and a subsequent get-remediation-link
requests its link for the second account id. -/
theorem claim_C2_double_create_overwrites (p : Payload)
    (row email a1 a2 : String) (env1 env2 : StripeEnv) (m : Mappings)
    (h1 : p.employee_row_id = some row) (h2 : row ≠ "")
    (h3 : p.email = some email) (h4 : email ≠ "")
    (h5 : env1.createAccount = Except.ok a1)
    (h6 : env2.createAccount = Except.ok a2)
    (h7 : (keysOf m).Nodup) (h8 : a2 ≠ "") :
    (createConnectedAccount (some p) env2
        ((createConnectedAccount (some p) env1 (Except.ok m)).2)).2 =
      Except.ok (setKey (setKey m row a1) row a2)
    ∧ getKey (setKey (setKey m row a1) row a2) row = some a2
    ∧ (keysOf (setKey m row a1)).count row ≤ 1
    ∧ (keysOf (setKey (setKey m row a1) row a2)).count row ≤ 1
    ∧ (getRemediationLink (some row) env2
        ((createConnectedAccount (some p) env2
          ((createConnectedAccount (some p) env1 (Except.ok m)).2)).2)).1.effects =
      [Effect.readMappings, Effect.stripeCreateLink a2] := by
  have hs1 := createConnectedAccount_store_eq p row email a1 env1 m h1 h2 h3 h4 h5
  rw [hs1]
  have hs2 := createConnectedAccount_store_eq p row email a2 env2
    (setKey m row a1) h1 h2 h3 h4 h6
  rw [hs2]
  have hnd1 : (keysOf (setKey m row a1)).Nodup := keysOf_setKey_nodup m row a1 h7
  have hnd2 : (keysOf (setKey (setKey m row a1) row a2)).Nodup :=
    keysOf_setKey_nodup (setKey m row a1) row a2 hnd1
  have hb2 : (row == "") = false := beq_eq_false_iff_ne.mpr h2
  have hb8 : (a2 == "") = false := beq_eq_false_iff_ne.mpr h8
  refine ⟨rfl, getKey_setKey_self (setKey m row a1) row a2,
    List.nodup_iff_count_le_one.mp hnd1 row,
    List.nodup_iff_count_le_one.mp hnd2 row, ?_⟩
  rcases hcl : env2.createLink a2 with e | l <;>
    simp [getRemediationLink, isTruthyOpt, hb2,
      getKey_setKey_self (setKey m row a1) row a2, hb8, hcl]

/-- Witness for C2: two creates for row1 (first yields acct_1, second
yields acct_2) starting from the empty store. -/
theorem claim_C2_witness :
    (createConnectedAccount (some payloadA) envB
        ((createConnectedAccount (some payloadA) envA (Except.ok [])).2)).2 =
      Except.ok ([("row1", "acct_2")] : Mappings)
    ∧ getKey [("row1", "acct_2")] "row1" = some "acct_2"
    ∧ (keysOf [("row1", "acct_1")]).count "row1" ≤ 1
    ∧ (keysOf [("row1", "acct_2")]).count "row1" ≤ 1
    ∧ (getRemediationLink (some "row1") envB
        (Except.ok [("row1", "acct_2")])).1.effects =
      [Effect.readMappings, Effect.stripeCreateLink "acct_2"] :=
  claim_C2_double_create_overwrites payloadA "row1" "ann@example.com"
    "acct_1" "acct_2" envA envB [] rfl (by decide) rfl (by decide) rfl rfl
    List.nodup_nil (by decide)

/-- Claim C7 counterexample: a parseable, fully qualifying event handled
while the mappings file is unreadable.  The part_000 webhook answers 500
(its explicit mappings-read-failure branch), and the src/index.js webhook
raises an uncaught exception so no acknowledgment is sent at all — the
claim that only an unparsable body can prevent the 200 acknowledgment is
false. -/
theorem claim_C7_counterexample :
    (webhookPart000 (some eventQ) envA (Except.error ())).status = some 500
    ∧ (webhook (some eventQ) envA (Except.error ())).status = none
    ∧ (some 500 : Option Nat) ≠ some 200 :=
  ⟨rfl, rfl, by decide⟩

/-- Claim C7 as amended: for every parseable event handled over a readable
mapping store, the webhook endpoints of src/index.js and src/unnamed/
part_000 acknowledge with 200 — whatever the event type, flags, lookup
outcome, dashboard-link outcome or push outcome — and an unparsable body
is answered 400; only a mappings-read failure on a qualifying event
escapes this (500 in part_000, an uncaught exception in src/index.js), as
the counterexample shows. -/
theorem claim_C7_webhook_ack (e : WebhookEvent) (env : StripeEnv)
    (m : Mappings) :
    (webhook (some e) env (Except.ok m)).status = some 200
    ∧ (webhookPart000 (some e) env (Except.ok m)).status = some 200
    ∧ (∀ env2 store2, (webhook none env2 store2).status = some 400
        ∧ (webhookPart000 none env2 store2).status = some 400) := by
  refine ⟨?_, ?_, fun env2 store2 => ⟨rfl, rfl⟩⟩
  · dsimp only [webhook]
    repeat
      first
      | rfl
      | split
      | dsimp only
  · dsimp only [webhookPart000]
    repeat
      first
      | rfl
      | split
      | dsimp only

/-- Claim C8 counterexample: a fully successful run of the
create-connected-account handler of src/unnamed/part_000 (second
revision) on a valid payload: it responds 200 yet its trace contains no
mapping-file write and the store is untouched — the mapping is NOT
persisted in every successful run of the repository's
create-connected-account handlers. -/
theorem claim_C8_counterexample :
    (createConnectedAccountV2 (some payloadA) envA (Except.ok [])).1.status
      = some 200
    ∧ ((createConnectedAccountV2 (some payloadA) envA
        (Except.ok [])).1.effects.all (fun e => !(e.isWriteMappings))) = true
    ∧ (createConnectedAccountV2 (some payloadA) envA (Except.ok [])).2
      = Except.ok ([] : Mappings) :=
  ⟨rfl, rfl, rfl⟩

/-- Claim C8 as amended: in src/index.js, every successful
create-connected-account run performs its side effects in the order
(a) Stripe account creation, (then the mapping read,) (b) mapping write
`row -> new account id` overwriting any prior mapping for that row,
(c) onboarding-link creation — so the mapping is persisted before the link
is requested; the second part_000 revision instead skips the persist step
entirely. -/
theorem claim_C8_index_create_effect_order (p : Payload)
    (row email acct link : String) (env : StripeEnv) (m : Mappings)
    (h1 : p.employee_row_id = some row) (h2 : row ≠ "")
    (h3 : p.email = some email) (h4 : email ≠ "")
    (h5 : env.createAccount = Except.ok acct)
    (h6 : env.createLink acct = Except.ok link) :
    createConnectedAccount (some p) env (Except.ok m) =
      ({ status := some 200, url := some link,
         effects := [Effect.stripeCreateAccount email, Effect.readMappings,
                     Effect.writeMappings (setKey m row acct),
                     Effect.stripeCreateLink acct] },
       Except.ok (setKey m row acct)) :=
  createConnectedAccount_success p row email acct link env m h1 h2 h3 h4 h5 h6

/-- Witness for the amended C8 at the valid payload over the empty
store. -/
theorem claim_C8_witness :
    createConnectedAccount (some payloadA) envA (Except.ok []) =
      ({ status := some 200,
         url := some ("https://connect.stripe.com/setup/" ++ "acct_1"),
         effects := [Effect.stripeCreateAccount "ann@example.com",
                     Effect.readMappings,
                     Effect.writeMappings [("row1", "acct_1")],
                     Effect.stripeCreateLink "acct_1"] },
       Except.ok ([("row1", "acct_1")] : Mappings)) :=
  claim_C8_index_create_effect_order payloadA "row1" "ann@example.com"
    "acct_1" ("https://connect.stripe.com/setup/" ++ "acct_1") envA []
    rfl (by decide) rfl (by decide) rfl rfl
